import Mathlib

/-!
Shallow embedding of the three page scripts of the `SIR` local-search
repository and proofs about them.

Sources embedded:
* `src/unnamed/part_000` — the results-page controller: the script-global
  variables, `renderResults`, and the `DOMContentLoaded` fetch handler.
* `src/unnamed/part_001` — the index-page UX bindings: the Enter-key
  `keyup` listener on the query input.
* `src/local_search_engine/templates/documents/script.js` — the
  documents-page controller: its `renderResults`, the `submit` fetch
  handler, and the night-theme initialisation from local storage.

Modelling conventions:
* A JavaScript value that may be `undefined` or a string is an
  `Option String`; `none` is `undefined` (also the result of reading an
  absent object property or `localStorage.getItem` on a missing key).
* JavaScript truthiness of such a value: `undefined` and `""` are falsy,
  every other string is truthy (`jsTruthy`).
* The DOM results container is a list of the `<li>` items it holds;
  `innerHTML = ""` replaces it with `[]`.
* `alert` and `console.error` calls are collected as observable output of
  a handler run (`alerts : List String`, `loggedError : Bool`).
* A thrown exception that reaches the promise chain's `.catch` is
  modelled by the branch that ends the run with `loggedError := true`.
-/

namespace SIR

/-- Truthiness of a JavaScript value that is either `undefined` (`none`)
or a string: `undefined` and the empty string are falsy. -/
def jsTruthy : Option String → Bool
  | none => false
  | some s => !(s == "")

/-- One element of the server's `results` array.  `url`, `title`,
`snippet` are the fields the documents-page renderer reads; the
results-page renderer additionally inspects an `error_message` property,
which a result object may or may not carry (`Option`). -/
structure SearchResult where
  url : String
  title : String
  snippet : String
  error_message : Option String
deriving Repr, DecidableEq

/-- The parsed JSON response body (the "response envelope"): it may carry
an `error_message` field and/or a `results` field; a missing field reads
as `undefined` (`none`). -/
structure ResponseBody where
  error_message : Option String
  results : Option (List SearchResult)
deriving Repr, DecidableEq

/-- A fetch response as the `.then` chain sees it: its HTTP `ok` flag and
its body; `body = none` models a body that is not valid JSON, so that
`response.json()` rejects. -/
structure HttpResponse where
  ok : Bool
  body : Option ResponseBody
deriving Repr, DecidableEq

/-! ## Results page: `src/unnamed/part_000` -/

/-- A `<li>` appended by the results-page `renderResults`: the code gives
it only the class `"result"` (its inner content is elided as `// ...` in
the source). -/
structure ResultLi where
  cls : String
deriving Repr, DecidableEq

/-- The `<li class="result">` element `renderResults` creates. -/
def resultLi : ResultLi := ⟨"result"⟩

/-- Observable outcome of one call of the results-page `renderResults`:
the window's `error_message` property after the call (`this.error_message`
in the non-strict function body), the final contents of the results
container, and the alerts raised. -/
structure RenderOutcome where
  win : Option String
  items : List ResultLi
  alerts : List String
deriving Repr, DecidableEq

/-- The `for (const result of searchResults)` loop of the results-page
`renderResults`: on the first result whose `error_message` is truthy, set
`this.error_message` to it and `break`; otherwise append a
`<li class="result">` and continue. Returns the window property and the
container contents when the loop ends. -/
def renderLoop : Option String → List ResultLi → List SearchResult →
    Option String × List ResultLi
  | win, acc, [] => (win, acc)
  | win, acc, r :: rs =>
    if jsTruthy r.error_message then
      (r.error_message, acc)
    else
      renderLoop win (acc ++ [resultLi]) rs

/-- `renderResults` of `src/unnamed/part_000`.  `win` is the value of the
window's `error_message` property when the call starts (the script's
top-level `let error_message` does NOT create this property, so on a
fresh page it is `none`); `prior` is the container's content, discarded
by `resultsElement.innerHTML = ""`.  After the loop, a truthy
`this.error_message` raises the error alert; otherwise an empty input
raises the no-results alert. -/
def results_renderResults (win : Option String) (prior : List ResultLi)
    (searchResults : List SearchResult) : RenderOutcome :=
  -- resultsElement.innerHTML = "";  — the prior contents are dropped
  let _ := prior
  let out := renderLoop win [] searchResults
  let alerts :=
    if jsTruthy out.1 then
      ["Error retrieving search results: " ++ out.1.getD ""]
    else if searchResults.length == 0 then
      ["No results found for your query."]
    else
      []
  ⟨out.1, out.2, alerts⟩

/-- Observable outcome of one run of the results-page fetch handler. -/
structure ResultsOutcome where
  alerts : List String
  loggedError : Bool
  items : List ResultLi
  win : Option String
deriving Repr, DecidableEq

/-- The promise chain of the results-page `DOMContentLoaded` handler
(`src/unnamed/part_000`): a non-`ok` response throws and is only logged;
a body that fails to parse rejects and is only logged; otherwise the
handler runs `data.results = undefined;`, alerts and returns on a truthy
`data.error_message`, and else calls `renderResults(data.results)` —
which, `data.results` having just been set to `undefined`, clears the
container and then throws a `TypeError` from the `for…of`, caught and
logged by the `.catch`. -/
def resultsController (win : Option String) (prior : List ResultLi)
    (resp : HttpResponse) : ResultsOutcome :=
  if !resp.ok then
    ⟨[], true, prior, win⟩
  else
    match resp.body with
    | none => ⟨[], true, prior, win⟩
    | some data =>
      -- data.results = undefined;
      let data := { data with results := none }
      if jsTruthy data.error_message then
        ⟨["Error from server: " ++ data.error_message.getD ""], false, prior, win⟩
      else
        match data.results with
        | none =>
          -- renderResults(undefined): innerHTML cleared, then the
          -- for…of throws; the .catch logs the error
          ⟨[], true, [], win⟩
        | some rs =>
          let o := results_renderResults win prior rs
          ⟨o.alerts, false, o.items, o.win⟩

/-! ## Documents page: `src/local_search_engine/templates/documents/script.js` -/

/-- A `<li class="result">` built by the documents-page `renderResults`:
a title link (`href`, text), a `<br>`, and a snippet text node. -/
structure DocItem where
  href : String
  titleText : String
  snippet : String
deriving Repr, DecidableEq

/-- The render loop of the documents-page `renderResults`: one `DocItem`
appended per result, no error checks, no alerts. -/
def docRenderLoop (acc : List DocItem) : List SearchResult → List DocItem
  | [] => acc
  | r :: rs => docRenderLoop (acc ++ [⟨r.url, r.title, r.snippet⟩]) rs

/-- `renderResults` of the documents-page script: clear the container
(dropping `prior`), then append one item per result. -/
def documents_renderResults (prior : List DocItem)
    (searchResults : List SearchResult) : List DocItem :=
  let _ := prior
  docRenderLoop [] searchResults

/-- Observable outcome of one run of the documents-page fetch handler. -/
structure DocsOutcome where
  alerts : List String
  loggedError : Bool
  items : List DocItem
deriving Repr, DecidableEq

/-- The promise chain of the documents-page `submit` handler: a non-`ok`
response throws and is only logged; a body that fails to parse rejects
and is only logged; a truthy `data.error_message` alerts and returns;
otherwise `renderResults(data.results)` runs (if `data.results` is
`undefined` the `for…of` throws and the `.catch` logs). -/
def documentsController (prior : List DocItem) (resp : HttpResponse) :
    DocsOutcome :=
  if !resp.ok then
    ⟨[], true, prior⟩
  else
    match resp.body with
    | none => ⟨[], true, prior⟩
    | some data =>
      if jsTruthy data.error_message then
        ⟨["Error from server: " ++ data.error_message.getD ""], false, prior⟩
      else
        match data.results with
        | none => ⟨[], true, []⟩
        | some rs => ⟨[], false, documents_renderResults prior rs⟩

/-- `const nightThemeEnabled = localStorage.getItem('nightTheme') === 'true';`
`stored` is the stored value under the `nightTheme` key (`none` when the
key is absent, in which case `getItem` returns `null`). -/
def nightThemeEnabled (stored : Option String) : Bool :=
  stored == some "true"

/-- The theme initialisation at the bottom of the documents-page script:
`if (nightThemeEnabled) document.documentElement.classList.add('night-theme')`,
applied to the document root's class list. -/
def applyNightTheme (stored : Option String) (rootClassList : List String) :
    List String :=
  if nightThemeEnabled stored then rootClassList ++ ["night-theme"]
  else rootClassList

/-! ## Index page: `src/unnamed/part_001` -/

/-- A keyboard event as the `keyup` listener sees it. -/
structure KeyEvent where
  key : String
deriving Repr, DecidableEq

/-- Observable outcome of one run of the query input's `keyup` listener. -/
structure KeyupOutcome where
  preventedDefault : Bool
  submitCalls : Nat
deriving Repr, DecidableEq

/-- The `keyup` listener on the query input (`src/unnamed/part_001`):
on `key === 'Enter'`, `event.preventDefault()` then
`document.querySelector('form').submit()`; otherwise nothing. -/
def queryKeyupHandler (event : KeyEvent) : KeyupOutcome :=
  if event.key == "Enter" then ⟨true, 1⟩ else ⟨false, 0⟩

/-! ## Helper lemmas -/

/-- If no result in the list has a truthy `error_message`, the results-page
render loop keeps the window property and appends one `<li>` per result. -/
theorem renderLoop_clean (xs : List SearchResult)
    (h : ∀ r ∈ xs, jsTruthy r.error_message = false) :
    ∀ win acc, renderLoop win acc xs = (win, acc ++ List.replicate xs.length resultLi) := by
  induction xs with
  | nil => intro win acc; simp [renderLoop]
  | cons r rs ih =>
    intro win acc
    have hr : jsTruthy r.error_message = false := h r (by simp)
    have hrs : ∀ x ∈ rs, jsTruthy x.error_message = false :=
      fun x hx => h x (List.mem_cons_of_mem r hx)
    simp [renderLoop, hr, ih hrs, List.replicate_succ]

/-- The results-page render loop stops at the first result with a truthy
`error_message`: the window property becomes that value and only the
preceding results have produced `<li>` items. -/
theorem renderLoop_stop (pre : List SearchResult) (e : SearchResult)
    (rest : List SearchResult)
    (hpre : ∀ r ∈ pre, jsTruthy r.error_message = false)
    (he : jsTruthy e.error_message = true) :
    ∀ win acc, renderLoop win acc (pre ++ e :: rest) =
      (e.error_message, acc ++ List.replicate pre.length resultLi) := by
  induction pre with
  | nil => intro win acc; simp [renderLoop, he]
  | cons r rs ih =>
    intro win acc
    have hr : jsTruthy r.error_message = false := hpre r (by simp)
    have hrs : ∀ x ∈ rs, jsTruthy x.error_message = false :=
      fun x hx => hpre x (List.mem_cons_of_mem r hx)
    simp [renderLoop, hr, ih hrs, List.replicate_succ]

/-- If the initial window property is truthy, or some result in the list
has a truthy `error_message`, the window property is truthy after the
results-page render loop. -/
theorem renderLoop_win_truthy (ys : List SearchResult) :
    ∀ win acc, (jsTruthy win = true ∨ ∃ r ∈ ys, jsTruthy r.error_message = true) →
      jsTruthy (renderLoop win acc ys).1 = true := by
  induction ys with
  | nil =>
    intro win acc h
    rcases h with h | ⟨r, hr, _⟩
    · simpa [renderLoop] using h
    · simp at hr
  | cons r rs ih =>
    intro win acc h
    by_cases hr : jsTruthy r.error_message = true
    · simp [renderLoop, hr]
    · have hr' : jsTruthy r.error_message = false := by
        simpa using hr
      rw [renderLoop, hr']
      simp only [Bool.false_eq_true, if_false]
      apply ih
      rcases h with h | ⟨x, hx, hxt⟩
      · exact Or.inl h
      · rcases List.mem_cons.mp hx with rfl | hx'
        · exact absurd hxt hr
        · exact Or.inr ⟨x, hx', hxt⟩

/-- The documents-page render loop appends one item per result. -/
theorem docRenderLoop_eq (xs : List SearchResult) :
    ∀ acc, docRenderLoop acc xs =
      acc ++ xs.map (fun r => (⟨r.url, r.title, r.snippet⟩ : DocItem)) := by
  induction xs with
  | nil => intro acc; simp [docRenderLoop]
  | cons r rs ih => intro acc; simp [docRenderLoop, ih]

/-- The documents-page renderer always yields exactly one item per result. -/
theorem documents_renderResults_length (prior : List DocItem)
    (xs : List SearchResult) :
    (documents_renderResults prior xs).length = xs.length := by
  simp [documents_renderResults, docRenderLoop_eq]

/-! ## Claims -/

/-- Claim C1: the claim says a successful response (HTTP OK, valid JSON, no
`error_message` field) whose results array has N elements makes the page
controller render exactly N list items.  The documents-page controller does
(here N = 1), but the results-page controller's then-handler executes
`data.results = undefined;` before reading `data.results`, so it clears the
container, renders 0 items, raises no alert and logs the `TypeError` — the
code contradicts its own comment "Update received data and render results". -/
theorem C1_results_controller_drops_results :
    (resultsController none []
        ⟨true, some ⟨none, some [⟨"u", "t", "s", none⟩]⟩⟩).items.length = 0 ∧
    (resultsController none []
        ⟨true, some ⟨none, some [⟨"u", "t", "s", none⟩]⟩⟩).alerts = [] ∧
    (resultsController none []
        ⟨true, some ⟨none, some [⟨"u", "t", "s", none⟩]⟩⟩).loggedError = true ∧
    (documentsController []
        ⟨true, some ⟨none, some [⟨"u", "t", "s", none⟩]⟩⟩).items.length = 1 := by
  refine ⟨rfl, rfl, rfl, rfl⟩

/-- Claim C2, counterexample: on a successful response with one result and
no error, the documents-page controller renders one list item while the
results-page controller renders none, so the two controllers do not render
the same number of list items. -/
theorem C2_render_counts_differ :
    ¬ ((documentsController []
          ⟨true, some ⟨none, some [⟨"u", "t", "s", none⟩]⟩⟩).items.length =
       (resultsController none []
          ⟨true, some ⟨none, some [⟨"u", "t", "s", none⟩]⟩⟩).items.length) := by
  decide

/-- Claim C2, amended: for every server response the two controllers raise
identical alerts, but they do not render the same number of list items: on
a successful response without a truthy `error_message` and with a results
array `rs`, the documents-page controller renders `rs.length` items while
the results-page controller renders zero (its then-handler overwrites
`data.results` with `undefined` before rendering). -/
theorem C2_amended_alerts_agree_render_counts_differ
    (win : Option String) (priorR : List ResultLi) (priorD : List DocItem)
    (resp : HttpResponse) :
    (resultsController win priorR resp).alerts =
      (documentsController priorD resp).alerts ∧
    (∀ data rs, resp.ok = true → resp.body = some data →
      jsTruthy data.error_message = false → data.results = some rs →
      (documentsController priorD resp).items.length = rs.length ∧
      (resultsController win priorR resp).items.length = 0) := by
  obtain ⟨ok, body⟩ := resp
  constructor
  · cases ok with
    | false => simp [resultsController, documentsController]
    | true =>
      cases body with
      | none => simp [resultsController, documentsController]
      | some data =>
        by_cases he : jsTruthy data.error_message = true
        · simp [resultsController, documentsController, he]
        · have he' : jsTruthy data.error_message = false := by simpa using he
          cases hres : data.results with
          | none => simp [resultsController, documentsController, he', hres]
          | some rs => simp [resultsController, documentsController, he', hres]
  · intro data rs hok hbody herr hres
    obtain rfl := hok
    obtain rfl : body = some data := hbody
    simp [resultsController, documentsController, herr, hres,
      documents_renderResults_length]

/-- Claim C2, witness for the amended theorem at a concrete response. -/
theorem C2_amended_witness :
    (resultsController none []
        ⟨true, some ⟨none, some [⟨"u", "t", "s", none⟩]⟩⟩).alerts =
      (documentsController []
        ⟨true, some ⟨none, some [⟨"u", "t", "s", none⟩]⟩⟩).alerts ∧
    (documentsController []
        ⟨true, some ⟨none, some [⟨"u", "t", "s", none⟩]⟩⟩).items.length = 1 ∧
    (resultsController none []
        ⟨true, some ⟨none, some [⟨"u", "t", "s", none⟩]⟩⟩).items.length = 0 := by
  have h := C2_amended_alerts_agree_render_counts_differ none [] []
    ⟨true, some ⟨none, some [⟨"u", "t", "s", none⟩]⟩⟩
  have h2 := h.2 ⟨none, some [⟨"u", "t", "s", none⟩]⟩ [⟨"u", "t", "s", none⟩]
    rfl rfl (by decide) rfl
  exact ⟨h.1, h2.1, h2.2⟩

/-- Claim C3, counterexample: a parsed body that contains the
`error_message` field with the (falsy) empty-string value — the claim says
the controller alerts and never calls the renderer, but the documents-page
controller raises no alert, calls the renderer and renders the one result. -/
theorem C3_present_but_empty_error_field_renders :
    (documentsController []
        ⟨true, some ⟨some "", some [⟨"u", "t", "s", none⟩]⟩⟩).alerts = [] ∧
    (documentsController []
        ⟨true, some ⟨some "", some [⟨"u", "t", "s", none⟩]⟩⟩).items.length = 1 := by
  decide

/-- Claim C3, amended: for every parsed response body whose `error_message`
field is present with a non-empty (truthy) value, both controllers show
that message via the server-error alert and stop: the renderer is not
reached and the results container keeps its prior contents. -/
theorem C3_amended_truthy_error_alerts_and_stops
    (win : Option String) (priorR : List ResultLi) (priorD : List DocItem)
    (resp : HttpResponse) (data : ResponseBody) (s : String)
    (hok : resp.ok = true) (hbody : resp.body = some data)
    (herr : data.error_message = some s) (hs : s ≠ "") :
    resultsController win priorR resp =
      ⟨["Error from server: " ++ s], false, priorR, win⟩ ∧
    documentsController priorD resp =
      ⟨["Error from server: " ++ s], false, priorD⟩ := by
  obtain ⟨ok, body⟩ := resp
  obtain rfl := hok
  obtain rfl : body = some data := hbody
  have ht : jsTruthy (some s) = true := by
    simp [jsTruthy, hs]
  constructor
  · simp [resultsController, herr, ht]
  · simp [documentsController, herr, ht]

/-- Claim C3, witness for the amended theorem at a concrete response. -/
theorem C3_amended_witness :
    resultsController none []
        ⟨true, some ⟨some "boom", some [⟨"u", "t", "s", none⟩]⟩⟩ =
      ⟨["Error from server: boom"], false, [], none⟩ ∧
    documentsController []
        ⟨true, some ⟨some "boom", some [⟨"u", "t", "s", none⟩]⟩⟩ =
      ⟨["Error from server: boom"], false, []⟩ :=
  C3_amended_truthy_error_alerts_and_stops none [] []
    ⟨true, some ⟨some "boom", some [⟨"u", "t", "s", none⟩]⟩⟩
    ⟨some "boom", some [⟨"u", "t", "s", none⟩]⟩ "boom" rfl rfl rfl (by decide)

/-- Claim C4, counterexample: a sequence whose single result carries the
`error_message` field with the (falsy) empty-string value — the claim says
rendering stops at that item with no `<li>` appended for it and an alert,
but the results-page renderer appends a `<li>` for it and raises no alert. -/
theorem C4_present_but_empty_error_field_is_rendered :
    (results_renderResults none [] [⟨"u", "t", "s", some ""⟩]).items.length = 1 ∧
    (results_renderResults none [] [⟨"u", "t", "s", some ""⟩]).alerts = [] := by
  decide

/-- Claim C4, amended: for every sequence passed to the results-page
renderer in which some result carries a non-empty (truthy) `error_message`,
rendering stops immediately at the first such item: no `<li>` is appended
for it or any later result (only the preceding clean results yield items),
and that error is surfaced via the page's error alert. -/
theorem C4_amended_stops_at_first_truthy_error
    (win : Option String) (prior : List ResultLi)
    (pre : List SearchResult) (e : SearchResult) (rest : List SearchResult)
    (hpre : ∀ r ∈ pre, jsTruthy r.error_message = false)
    (he : jsTruthy e.error_message = true) :
    (results_renderResults win prior (pre ++ e :: rest)).items.length =
      pre.length ∧
    (results_renderResults win prior (pre ++ e :: rest)).alerts =
      ["Error retrieving search results: " ++ e.error_message.getD ""] := by
  simp [results_renderResults, renderLoop_stop pre e rest hpre he, he]

/-- Claim C4, witness for the amended theorem at a concrete sequence. -/
theorem C4_amended_witness :
    (results_renderResults none []
        ([⟨"u1", "t1", "s1", none⟩] ++ ⟨"u2", "t2", "s2", some "bad"⟩ ::
          [⟨"u3", "t3", "s3", none⟩])).items.length = 1 ∧
    (results_renderResults none []
        ([⟨"u1", "t1", "s1", none⟩] ++ ⟨"u2", "t2", "s2", some "bad"⟩ ::
          [⟨"u3", "t3", "s3", none⟩])).alerts =
      ["Error retrieving search results: " ++
        (some "bad" : Option String).getD ""] :=
  C4_amended_stops_at_first_truthy_error none []
    [⟨"u1", "t1", "s1", none⟩] ⟨"u2", "t2", "s2", some "bad"⟩
    [⟨"u3", "t3", "s3", none⟩] (by decide) (by decide)

/-- Claim C5, counterexample: the results-page renderer is stateful — when
a previous call left the window's `error_message` property set (here to
"boom"), an empty result sequence does not produce the "no results" alert;
the stale error alert is raised instead (and zero items are rendered). -/
theorem C5_stale_flag_masks_no_results_alert :
    ¬ ("No results found for your query." ∈
        (results_renderResults (some "boom") [] []).alerts) ∧
    (results_renderResults (some "boom") [] []).alerts =
      ["Error retrieving search results: boom"] ∧
    (results_renderResults (some "boom") [] []).items = [] := by
  decide

/-- Claim C5, amended: whenever the window's `error_message` property is
falsy (in particular on a fresh page, where it is `undefined`), an empty
result sequence passed to the results-page renderer produces the
"no results" alert and zero rendered list items. -/
theorem C5_amended_empty_input_no_results_alert
    (win : Option String) (prior : List ResultLi)
    (h : jsTruthy win = false) :
    (results_renderResults win prior []).alerts =
      ["No results found for your query."] ∧
    (results_renderResults win prior []).items = [] := by
  simp [results_renderResults, renderLoop, h]

/-- Claim C5, witness for the amended theorem on a fresh page. -/
theorem C5_amended_witness :
    (results_renderResults none [resultLi] []).alerts =
      ["No results found for your query."] ∧
    (results_renderResults none [resultLi] []).items = [] :=
  C5_amended_empty_input_no_results_alert none [resultLi] (by decide)

/-- Claim C6: for every fetch response whose HTTP status is not successful,
both controllers throw the generic network error, which the `.catch` only
logs to the console: no alert is raised and the results container keeps its
prior contents. -/
theorem C6_non_ok_logged_never_alerted
    (win : Option String) (priorR : List ResultLi) (priorD : List DocItem)
    (resp : HttpResponse) (h : resp.ok = false) :
    resultsController win priorR resp = ⟨[], true, priorR, win⟩ ∧
    documentsController priorD resp = ⟨[], true, priorD⟩ := by
  obtain ⟨ok, body⟩ := resp
  obtain rfl := h
  exact ⟨rfl, rfl⟩

/-- Claim C6, witness for a concrete non-OK response. -/
theorem C6_witness :
    resultsController none [resultLi] ⟨false, some ⟨none, some []⟩⟩ =
      ⟨[], true, [resultLi], none⟩ ∧
    documentsController [] ⟨false, some ⟨none, some []⟩⟩ = ⟨[], true, []⟩ :=
  C6_non_ok_logged_never_alerted none [resultLi] []
    ⟨false, some ⟨none, some []⟩⟩ rfl

/-- Claim C7: for every keyboard event in the query field whose key is
`"Enter"`, the `keyup` handler suppresses the default behaviour and calls
form submission exactly once; for every other key it does nothing. -/
theorem C7_enter_submits_exactly_once (event : KeyEvent) :
    (event.key = "Enter" → queryKeyupHandler event = ⟨true, 1⟩) ∧
    (event.key ≠ "Enter" → queryKeyupHandler event = ⟨false, 0⟩) := by
  constructor
  · intro h
    simp [queryKeyupHandler, h]
  · intro h
    simp [queryKeyupHandler, h]

/-- Claim C7, witness at concrete key events. -/
theorem C7_witness :
    queryKeyupHandler ⟨"Enter"⟩ = ⟨true, 1⟩ ∧
    queryKeyupHandler ⟨"a"⟩ = ⟨false, 0⟩ :=
  ⟨(C7_enter_submits_exactly_once ⟨"Enter"⟩).1 rfl,
   (C7_enter_submits_exactly_once ⟨"a"⟩).2 (by decide)⟩

/-- Claim C8: on load the documents-page script adds the `night-theme`
class to the document root if and only if the value stored under the
`nightTheme` key is exactly the string `'true'`; for any other stored value
or an absent key, the root's class list is left unchanged. -/
theorem C8_night_theme_iff_stored_true (stored : Option String) :
    ("night-theme" ∈ applyNightTheme stored [] ↔ stored = some "true") ∧
    (stored ≠ some "true" → applyNightTheme stored [] = []) := by
  constructor
  · constructor
    · intro h
      by_contra hne
      have : nightThemeEnabled stored = false := by
        simp [nightThemeEnabled, hne]
      simp [applyNightTheme, this] at h
    · intro h
      simp [applyNightTheme, nightThemeEnabled, h]
  · intro h
    have : nightThemeEnabled stored = false := by
      simp [nightThemeEnabled, h]
    simp [applyNightTheme, this]

/-- Claim C8, witness: the class is added for the stored string `'true'`
and withheld for the stored string `'false'`. -/
theorem C8_witness :
    ("night-theme" ∈ applyNightTheme (some "true") []) ∧
    applyNightTheme (some "false") [] = [] :=
  ⟨(C8_night_theme_iff_stored_true (some "true")).1.mpr rfl,
   (C8_night_theme_iff_stored_true (some "false")).2 (by decide)⟩

/-- Claim C9: the results-page renderer is not determined by its argument.
For an error-free non-empty input `xs`, a call on a fresh page raises no
alert, but the same call made after an earlier call whose input contained a
result with a truthy `error_message` raises the stale error alert — the
window's `error_message` property set via `this.error_message` is never
reset (it survives the second call unchanged). -/
theorem C9_renderer_depends_on_stale_error_flag
    (xs ys : List SearchResult) (p1 p2 p3 : List ResultLi)
    (hne : xs ≠ [])
    (hclean : ∀ r ∈ xs, jsTruthy r.error_message = false)
    (herr : ∃ r ∈ ys, jsTruthy r.error_message = true) :
    (results_renderResults none p2 xs).alerts = [] ∧
    (results_renderResults (results_renderResults none p1 ys).win p3 xs).alerts =
      ["Error retrieving search results: " ++
        (results_renderResults none p1 ys).win.getD ""] ∧
    (results_renderResults (results_renderResults none p1 ys).win p3 xs).win =
      (results_renderResults none p1 ys).win := by
  have hlen : (xs.length == 0) = false := by
    simp [List.length_eq_zero, hne]
  have hstale : jsTruthy (renderLoop none [] ys).1 = true :=
    renderLoop_win_truthy ys none [] (Or.inr herr)
  refine ⟨?_, ?_, ?_⟩
  · simp [results_renderResults, renderLoop_clean xs hclean, jsTruthy, hlen]
  · simp [results_renderResults, renderLoop_clean xs hclean, hstale]
  · simp [results_renderResults, renderLoop_clean xs hclean]

/-- Claim C9, witness at a concrete pair of calls. -/
theorem C9_witness :
    (results_renderResults none [] [⟨"u", "t", "s", none⟩]).alerts = [] ∧
    (results_renderResults
        (results_renderResults none [] [⟨"e", "e", "e", some "boom"⟩]).win []
        [⟨"u", "t", "s", none⟩]).alerts =
      ["Error retrieving search results: " ++
        (results_renderResults none [] [⟨"e", "e", "e", some "boom"⟩]).win.getD ""] ∧
    (results_renderResults
        (results_renderResults none [] [⟨"e", "e", "e", some "boom"⟩]).win []
        [⟨"u", "t", "s", none⟩]).win =
      (results_renderResults none [] [⟨"e", "e", "e", some "boom"⟩]).win :=
  C9_renderer_depends_on_stale_error_flag
    [⟨"u", "t", "s", none⟩] [⟨"e", "e", "e", some "boom"⟩] [] [] []
    (by decide) (by decide) (by decide)

/-- Claim C10: the results-page renderer is not atomic on error.  For every
input whose first result with a truthy `error_message` sits after the
`pre`-segment (position `k = pre.length`), the container's prior contents
are gone (whatever they were) and exactly the `k` list items appended for
the preceding results remain in the DOM, while the error alert is raised. -/
theorem C10_partial_render_survives_error
    (win : Option String) (prior : List ResultLi)
    (pre : List SearchResult) (e : SearchResult) (rest : List SearchResult)
    (hpre : ∀ r ∈ pre, jsTruthy r.error_message = false)
    (he : jsTruthy e.error_message = true) :
    (results_renderResults win prior (pre ++ e :: rest)).items =
      List.replicate pre.length resultLi ∧
    (results_renderResults win prior (pre ++ e :: rest)).alerts ≠ [] := by
  constructor
  · simp [results_renderResults, renderLoop_stop pre e rest hpre he]
  · simp [results_renderResults, renderLoop_stop pre e rest hpre he, he]

/-- Claim C10, witness: two clean results before the error item, with a
non-empty prior container. -/
theorem C10_witness :
    (results_renderResults none [resultLi, resultLi, resultLi]
        ([⟨"u1", "t1", "s1", none⟩, ⟨"u2", "t2", "s2", none⟩] ++
          ⟨"u3", "t3", "s3", some "oops"⟩ :: [])).items =
      List.replicate 2 resultLi ∧
    (results_renderResults none [resultLi, resultLi, resultLi]
        ([⟨"u1", "t1", "s1", none⟩, ⟨"u2", "t2", "s2", none⟩] ++
          ⟨"u3", "t3", "s3", some "oops"⟩ :: [])).alerts ≠ [] :=
  C10_partial_render_survives_error none [resultLi, resultLi, resultLi]
    [⟨"u1", "t1", "s1", none⟩, ⟨"u2", "t2", "s2", none⟩]
    ⟨"u3", "t3", "s3", some "oops"⟩ [] (by decide) (by decide)

end SIR
